import Mathlib

/-!
Verification of the Walletfy backend authentication subsystem.

The definitions below are a shallow embedding of the TypeScript sources:
src/core/middleware/auth.ts (verifyJWT, verifySession, authenticate,
optionalAuth), src/controllers/auth.controller.ts (register, login,
basicAuthLogin, sessionLogin, logout, profile, generateJWT,
decodeBasicAuth), src/validators/auth.validator.ts (createUserSchema,
loginUserSchema), src/models/user.model.ts (UserModel and its mongoose
schema), and src/core/middleware/errorHandler.ts.

The jsonwebtoken library sits at the boundary of the repository; tokens
are modelled symbolically: a signed token records its payload, the
issued-at and expiry timestamps (seconds), and the secret it was signed
with; verification succeeds exactly when the secret matches the
configured one and the expiry has not passed, matching the observable
contract of jwt.sign / jwt.verify with expiresIn 24h.  bcrypt is
likewise a boundary: hashing and comparison are passed in as function
parameters.
-/

namespace Walletfy

/-- Identity payload embedded in a JWT (validators JWTPayload). -/
structure JWTPayload where
  userId : String
  username : String
deriving DecidableEq, Repr

/-- Identity stored in the server-side session (validators SessionUser). -/
structure SessionUser where
  id : String
  username : String
deriving DecidableEq, Repr

/-- Identity attached to the request as req.user by the middleware. -/
structure AuthUser where
  userId : String
  username : String
deriving DecidableEq, Repr

/-- A token string on the wire, viewed through the jsonwebtoken library:
either the output of jwt.sign (payload, issued-at, expiry, signing
secret), a structurally invalid string, or the empty string (which the
middleware treats as a missing token before any verification). -/
inductive TokenWire where
  | signed (payload : JWTPayload) (iat : Nat) (expiry : Nat) (secret : String)
  | garbage (s : String)
  | empty
deriving DecidableEq, Repr

/-- Error categories thrown by jwt.verify.  TokenExpiredError is a
subclass of JsonWebTokenError in the library, which is why the
middleware catch treats all three alike. -/
inductive JwtError where
  | invalidSignature
  | malformed
  | expired
deriving DecidableEq, Repr

/-- Every error thrown by jwt.verify is an instance of
JsonWebTokenError (TokenExpiredError extends it). -/
def JwtError.isJsonWebTokenError : JwtError → Bool := fun _ => true

/-- The observable behaviour of jwt.verify(token, secret) at time now:
reject on structural corruption, reject when the signature was not
produced with the given secret, reject once the expiry has passed. -/
def jwtVerifyWire (w : TokenWire) (secret : String) (now : Nat) :
    Except JwtError JWTPayload :=
  match w with
  | .signed p _ expiry s =>
      if s ≠ secret then .error .invalidSignature
      else if expiry ≤ now then .error .expired
      else .ok p
  | .garbage _ => .error .malformed
  | .empty => .error .malformed

/-- Number of seconds in the fixed 24-hour token validity window
(expiresIn 24h passed to jwt.sign). -/
def tokenValiditySeconds : Nat := 86400

/-- The token produced by jwt.sign for a given payload, time and
secret. -/
def issuedToken (userId username : String) (now : Nat) (secret : String) :
    TokenWire :=
  .signed ⟨userId, username⟩ now (now + tokenValiditySeconds) secret

/-- generateJWT from auth.controller.ts: throws when JWT_SECRET is not
set, otherwise returns jwt.sign(payload, secret, expiresIn 24h). -/
def generateJWT (secret? : Option String) (now : Nat)
    (userId username : String) : Except String TokenWire :=
  match secret? with
  | none => .error "JWT_SECRET environment variable is not set"
  | some secret => .ok (issuedToken userId username now secret)

/-- An Authorization header value, discriminated the way the code does
with startsWith: a Bearer header carrying the token portion, a Basic
header carrying the base64-decoded credential string, or anything
else. -/
inductive AuthHeader where
  | bearer (w : TokenWire)
  | basic (credentials : String)
  | other (s : String)
deriving DecidableEq, Repr

/-- The credential material of an incoming request that the middleware
inspects: the optional Authorization header and the optional session
binding req.session.user. -/
structure AuthRequest where
  authorization : Option AuthHeader
  sessionUser : Option SessionUser
deriving DecidableEq, Repr

/-- Outcome of a middleware run: either a response was sent (status,
error field, message field) or next() was called with req.user set to
the given identity (none when no identity was attached). -/
inductive AuthOutcome where
  | respond (status : Nat) (error : String) (message : String)
  | proceed (user : Option AuthUser)
deriving DecidableEq, Repr

/-- Whether an optional Authorization header starts with Bearer. -/
def isBearerHeader : Option AuthHeader → Bool
  | some (.bearer _) => true
  | _ => false

/-- verifyJWT middleware from auth.ts lines 12-67, branch for branch:
missing or non-Bearer header, empty token after the Bearer prefix,
missing secret, then jwt.verify with the JsonWebTokenError catch. -/
def verifyJWT (secret? : Option String) (now : Nat) (req : AuthRequest) :
    AuthOutcome :=
  match req.authorization with
  | some (.bearer w) =>
    match w with
    | .empty => .respond 401 "Invalid token format" "Bearer token is missing"
    | _ =>
      match secret? with
      | none => .respond 500 "Configuration error" "JWT secret not configured"
      | some secret =>
        match jwtVerifyWire w secret now with
        | .ok p => .proceed (some ⟨p.userId, p.username⟩)
        | .error e =>
          if e.isJsonWebTokenError then
            .respond 401 "Invalid token" "JWT token is invalid or expired"
          else
            .respond 500 "Authentication error" "Failed to verify token"
  | _ => .respond 401 "Missing JWT token"
      "Authorization header with Bearer token required"

/-- verifySession middleware from auth.ts lines 72-101. -/
def verifySession (req : AuthRequest) : AuthOutcome :=
  match req.sessionUser with
  | none => .respond 401 "No active session"
      "Please login with session authentication"
  | some su => .proceed (some ⟨su.id, su.username⟩)

/-- Combined authenticate middleware from auth.ts lines 106-129: a
Bearer header routes exclusively to verifyJWT, otherwise a present
session routes to verifySession, otherwise 401. -/
def authenticate (secret? : Option String) (now : Nat) (req : AuthRequest) :
    AuthOutcome :=
  if isBearerHeader req.authorization then
    verifyJWT secret? now req
  else
    match req.sessionUser with
    | some _ => verifySession req
    | none => .respond 401 "Authentication required"
        "Please provide JWT token or login with session"

/-- optionalAuth middleware from auth.ts lines 134-154: same precedence
as authenticate but absence of both credentials continues without a
user. -/
def optionalAuth (secret? : Option String) (now : Nat) (req : AuthRequest) :
    AuthOutcome :=
  if isBearerHeader req.authorization then
    verifyJWT secret? now req
  else
    match req.sessionUser with
    | some _ => verifySession req
    | none => .proceed none

/-- JSON values as serialized by res.json.  Two equal values serialize
to byte-identical bodies; tokens appear as opaque strings. -/
inductive Json where
  | str (s : String)
  | num (n : Nat)
  | tok (t : TokenWire)
  | arr (elems : List (String × String))
  | obj (fields : List (String × Json))

/-- Top-level keys of a JSON object. -/
def Json.topKeys : Json → List String
  | .obj fields => fields.map (·.1)
  | _ => []

/-- Lookup of a top-level field of a JSON object. -/
def Json.lookup : Json → String → Option Json
  | .obj fields, k => (fields.find? (·.1 = k)).map (·.2)
  | _, _ => none

/-- Removal of a top-level field, as the JS delete operator does inside
the mongoose toObject transform. -/
def Json.eraseField : Json → String → Json
  | .obj fields, k => .obj (fields.filter (·.1 ≠ k))
  | j, _ => j

/-- An HTTP response: status code and JSON body. -/
structure HttpResponse where
  status : Nat
  body : Json

/-- User record as persisted by the mongoose user schema (id, username,
bcrypt password hash, creation time). -/
structure StoredUser where
  id : String
  username : String
  password : String
  createdAt : Nat
deriving DecidableEq, Repr

/-- The users collection. -/
abbrev UserStore := List StoredUser

/-- Login body shape (validators LoginUser, same shape as CreateUser). -/
structure LoginUser where
  username : String
  password : String
deriving DecidableEq, Repr

/-- Registration body shape is identical to the login shape. -/
abbrev CreateUser := LoginUser

/-- Whitespace trimming at both ends of a string, the JS
String.prototype.trim used by the Zod trim transform, written with
structural recursion so that it computes. -/
def jsTrim (s : String) : String :=
  String.mk
    (((s.toList.dropWhile Char.isWhitespace).reverse.dropWhile
      Char.isWhitespace).reverse)

/-- Splitting a character list at every occurrence of a separator
character; the analogue of the JS String.prototype.split used by
decodeBasicAuth. -/
def splitCharList (c : Char) : List Char → List (List Char)
  | [] => [[]]
  | x :: xs =>
    let r := splitCharList c xs
    if x = c then [] :: r
    else
      match r with
      | [] => [[x]]
      | y :: ys => (x :: y) :: ys

/-- JS split of a string at a separator character. -/
def jsSplit (c : Char) (s : String) : List String :=
  (splitCharList c s.toList).map String.mk

/-- One field-level issue of a Zod validation error. -/
structure ZodIssue where
  path : String
  message : String
deriving DecidableEq, Repr

/-- Issues raised by createUserSchema: username min 3 and max 50 are
checked on the raw string, the trim transform only runs afterwards;
password min 6 and max 100. -/
def createUserIssues (b : LoginUser) : List ZodIssue :=
  (if b.username.length < 3 then
    [⟨"username", "String must contain at least 3 character(s)"⟩] else []) ++
  (if 50 < b.username.length then
    [⟨"username", "String must contain at most 50 character(s)"⟩] else []) ++
  (if b.password.length < 6 then
    [⟨"password", "String must contain at least 6 character(s)"⟩] else []) ++
  (if 100 < b.password.length then
    [⟨"password", "String must contain at most 100 character(s)"⟩] else [])

/-- createUserSchema.parse: length bounds are validated on the raw
username, then the username is trimmed in the parsed output. -/
def parseCreateUser (b : LoginUser) : Except (List ZodIssue) CreateUser :=
  match createUserIssues b with
  | [] => .ok ⟨jsTrim b.username, b.password⟩
  | issues => .error issues

/-- loginUserSchema.parse: identical bounds and trim transform. -/
def parseLoginUser (b : LoginUser) : Except (List ZodIssue) LoginUser :=
  match createUserIssues b with
  | [] => .ok ⟨jsTrim b.username, b.password⟩
  | issues => .error issues

/-- UserModel.findByUsername: lookup including the password hash. -/
def findByUsername (store : UserStore) (username : String) :
    Option StoredUser :=
  store.find? (fun u => u.username = username)

/-- Projection of a stored user without its password hash, as returned
by findById with select excluding _id and password. -/
structure PublicUser where
  id : String
  username : String
  createdAt : Nat
deriving DecidableEq, Repr

/-- UserModel.findById: lookup excluding _id and password. -/
def findById (store : UserStore) (id : String) : Option PublicUser :=
  (store.find? (fun u => u.id = id)).map
    (fun u => ⟨u.id, u.username, u.createdAt⟩)

/-- UserModel.validateCredentials: find by username, then bcrypt
comparison of the supplied password against the stored hash; none on
an absent user and none on a mismatch. -/
def validateCredentials (cmp : String → String → Bool) (store : UserStore)
    (login : LoginUser) : Option StoredUser :=
  match findByUsername store login.username with
  | none => none
  | some u => if cmp login.password u.password then some u else none

/-- UserModel.existsByUsername: countDocuments with the username filter
compared against zero. -/
def existsByUsername (store : UserStore) (username : String) : Bool :=
  store.countP (fun u => u.username = username) > 0

/-- Atomic insert under the unique index on username declared by the
user schema: the storage layer rejects a duplicate username in a single
atomic step. -/
def storeInsertUnique (store : UserStore) (u : StoredUser) :
    Except Unit UserStore :=
  if store.any (fun v => v.username = u.username) then .error ()
  else .ok (store ++ [u])

/-- Runs a sequence of atomic unique inserts against the store in
order, recording which ones succeeded; this is the storage-level view
of any interleaving of concurrent registrations, since the insert is
the only mutating step. -/
def runInserts (store : UserStore) : List StoredUser → List Bool × UserStore
  | [] => ([], store)
  | u :: rest =>
    match storeInsertUnique store u with
    | .ok store2 =>
      let r := runInserts store2 rest
      (true :: r.1, r.2)
    | .error _ =>
      let r := runInserts store rest
      (false :: r.1, r.2)

/-- The full mongoose document of a stored user, _id included. -/
def userDocJson (u : StoredUser) (oid : String) : Json :=
  .obj [("_id", .str oid), ("id", .str u.id), ("username", .str u.username),
    ("password", .str u.password), ("createdAt", .num u.createdAt)]

/-- The toObject transform of the user schema: delete _id and delete
password from the document. -/
def userToObject (u : StoredUser) (oid : String) : Json :=
  ((userDocJson u oid).eraseField "_id").eraseField "password"

/-- User object embedded by the login handlers: id, username, createdAt
written out explicitly. -/
def loginUserJson (u : StoredUser) : Json :=
  .obj [("id", .str u.id), ("username", .str u.username),
    ("createdAt", .num u.createdAt)]

/-- User object of the profile handler, from the findById projection. -/
def publicUserJson (u : PublicUser) : Json :=
  .obj [("id", .str u.id), ("username", .str u.username),
    ("createdAt", .num u.createdAt)]

/-- The 401 body shared by the JSON, Basic and session login failures. -/
def invalidCredentialsBody : Json :=
  .obj [("error", .str "Invalid credentials"),
    ("message", .str "Username or password is incorrect")]

/-- errorHandler response to a ZodError: 400 with field details. -/
def zodErrorResponse (issues : List ZodIssue) : HttpResponse :=
  ⟨400, .obj [("error", .str "Validation error"),
    ("details", .arr (issues.map (fun i => (i.path, i.message))))]⟩

/-- errorHandler response to a generic Error without a statusCode, such
as the one thrown by generateJWT when the secret is missing. -/
def genericErrorResponse : HttpResponse :=
  ⟨500, .obj [("error", .str "Internal Server Error")]⟩

/-- AuthController.register: validate, check uniqueness (409 on a
taken username), create the user (the pre-save hook hashes the
password, the unique index guards the insert), then issue the token;
a thrown error reaches the global error handler. -/
def register (bhash : String → String) (secret? : Option String) (now : Nat)
    (newId oid : String) (store : UserStore) (body : LoginUser) :
    HttpResponse × UserStore :=
  match parseCreateUser body with
  | .error issues => (zodErrorResponse issues, store)
  | .ok data =>
    if existsByUsername store data.username then
      (⟨409, .obj [("error", .str "User already exists"),
        ("message", .str "Username is already taken")]⟩, store)
    else
      let newUser : StoredUser :=
        ⟨newId, data.username, bhash data.password, now⟩
      match storeInsertUnique store newUser with
      | .error _ => (genericErrorResponse, store)
      | .ok store2 =>
        match generateJWT secret? now newUser.id newUser.username with
        | .error _ => (genericErrorResponse, store2)
        | .ok tokn =>
          (⟨201, .obj [("message", .str "User registered successfully"),
            ("user", userToObject newUser oid), ("token", .tok tokn)]⟩,
            store2)

/-- AuthController.login (JSON body). -/
def login (cmp : String → String → Bool) (secret? : Option String)
    (now : Nat) (store : UserStore) (body : LoginUser) : HttpResponse :=
  match parseLoginUser body with
  | .error issues => zodErrorResponse issues
  | .ok data =>
    match validateCredentials cmp store data with
    | none => ⟨401, invalidCredentialsBody⟩
    | some user =>
      match generateJWT secret? now user.id user.username with
      | .error _ => genericErrorResponse
      | .ok tokn =>
        ⟨200, .obj [("message", .str "Login successful"),
          ("user", loginUserJson user), ("token", .tok tokn)]⟩

/-- decodeBasicAuth from auth.controller.ts, applied to the decoded
credential string: split on the colon, require a nonempty username and
password. -/
def decodeBasicAuth (credentials : String) : Option (String × String) :=
  match jsSplit ':' credentials with
  | username :: password :: _ =>
    if username = "" ∨ password = "" then none else some (username, password)
  | _ => none

/-- AuthController.basicAuthLogin: require a Basic header, decode the
credential pair, then the same verification as the JSON login.  The
decoded credentials bypass the Zod schema entirely. -/
def basicAuthLogin (cmp : String → String → Bool) (secret? : Option String)
    (now : Nat) (store : UserStore) (header : Option AuthHeader) :
    HttpResponse :=
  match header with
  | some (.basic credentials) =>
    match decodeBasicAuth credentials with
    | none => ⟨401, .obj [("error", .str "Invalid Basic Auth format"),
        ("message", .str "Invalid Basic authentication credentials format")]⟩
    | some (u, p) =>
      match validateCredentials cmp store ⟨u, p⟩ with
      | none => ⟨401, invalidCredentialsBody⟩
      | some user =>
        match generateJWT secret? now user.id user.username with
        | .error _ => genericErrorResponse
        | .ok tokn =>
          ⟨200, .obj [("message", .str "Basic Auth login successful"),
            ("user", loginUserJson user), ("token", .tok tokn)]⟩
  | _ => ⟨401, .obj [("error", .str "Missing Basic Auth header"),
      ("message", .str "Authorization header with Basic authentication required")]⟩

/-- AuthController.sessionLogin: same verification as the JSON login;
on success the session is bound to the identity and no token appears in
the body.  The second component is the new session binding, none when
the session is left untouched. -/
def sessionLogin (cmp : String → String → Bool) (store : UserStore)
    (body : LoginUser) : HttpResponse × Option SessionUser :=
  match parseLoginUser body with
  | .error issues => (zodErrorResponse issues, none)
  | .ok data =>
    match validateCredentials cmp store data with
    | none => (⟨401, invalidCredentialsBody⟩, none)
    | some user =>
      (⟨200, .obj [("message", .str "Session login successful"),
        ("user", loginUserJson user)]⟩, some ⟨user.id, user.username⟩)

/-- Result of the logout handler: response plus whether
res.clearCookie was called on the session cookie. -/
structure LogoutResult where
  status : Nat
  body : Json
  cookieCleared : Bool

/-- AuthController.logout: req.session.destroy with a callback; on a
destroy error respond 500 Logout failed, otherwise clear the cookie
and respond 200. -/
def logoutHandler (destroyFails : Bool) : LogoutResult :=
  if destroyFails then
    ⟨500, .obj [("error", .str "Logout failed"),
      ("message", .str "Could not clear session")], false⟩
  else
    ⟨200, .obj [("message", .str "Logout successful")], true⟩

/-- AuthController.profile: identity from req.user, falling back to the
session binding; 401 when absent, 404 when the id no longer resolves,
otherwise the findById projection. -/
def profile (store : UserStore) (reqUser : Option AuthUser)
    (sessionUser : Option SessionUser) : HttpResponse :=
  let userId? : Option String :=
    match reqUser with
    | some u => some u.userId
    | none => sessionUser.map (·.id)
  match userId? with
  | none => ⟨401, .obj [("error", .str "Not authenticated"),
      ("message", .str "User not found in request context")]⟩
  | some uid =>
    match findById store uid with
    | none => ⟨404, .obj [("error", .str "User not found"),
        ("message", .str "User profile does not exist")]⟩
    | some pu => ⟨200, .obj [("user", publicUserJson pu)]⟩

/-! Helper facts shared by the theorems below. -/

/-- Concrete bcrypt hash stand-in used for closed instantiations. -/
def bh0 : String → String := fun p => "bh:" ++ p

/-- Concrete bcrypt comparison consistent with bh0. -/
def cmp0 : String → String → Bool := fun p h => h = "bh:" ++ p

/-- A store holding one registered user alice with password secret123. -/
def store0 : UserStore := [⟨"u1", "alice", "bh:secret123", 0⟩]

/-- The countDocuments-based existence check agrees with membership of
the username in the store. -/
theorem existsByUsername_eq_any (store : UserStore) (w : String) :
    existsByUsername store w = store.any (fun u => u.username = w) := by
  unfold existsByUsername
  induction store with
  | nil => rfl
  | cons u rest ih =>
    by_cases hu : u.username = w
    · simp [List.countP_cons, hu]
    · simpa [List.countP_cons, hu] using ih

/-- C3: verifying a token issued by generateJWT under the same
configured secret, at any time before the 24-hour expiry, succeeds and
attaches exactly the identity with the issued userId and username to
the request, regardless of any session on the request. -/
theorem issue_verify_roundtrip (secret : String) (isd chk : Nat)
    (id name : String) (su : Option SessionUser)
    (hchk : chk < isd + tokenValiditySeconds) :
    generateJWT (some secret) isd id name =
      .ok (issuedToken id name isd secret) ∧
    verifyJWT (some secret) chk
      ⟨some (.bearer (issuedToken id name isd secret)), su⟩ =
      .proceed (some ⟨id, name⟩) := by
  refine ⟨rfl, ?_⟩
  simp [verifyJWT, issuedToken, jwtVerifyWire, Nat.not_le.mpr hchk]

/-- Witness for issue_verify_roundtrip at a concrete secret, issue time
0 and verification time 100. -/
theorem issue_verify_roundtrip_witness :
    generateJWT (some "k") 0 "u" "a" = .ok (issuedToken "u" "a" 0 "k") ∧
    verifyJWT (some "k") 100 ⟨some (.bearer (issuedToken "u" "a" 0 "k")), none⟩ =
      .proceed (some ⟨"u", "a"⟩) :=
  issue_verify_roundtrip "k" 0 100 "u" "a" none (by decide)

/-- C4: a structurally valid token with a matching signature verified
strictly more than 24 hours after issuance is rejected 401 with the
same response as a token signed under a different secret and the same
response as a structurally corrupt token. -/
theorem expired_token_same_rejection (secret s2 g : String) (isd chk : Nat)
    (p : JWTPayload) (su : Option SessionUser)
    (hlate : isd + tokenValiditySeconds < chk) (hs2 : s2 ≠ secret) :
    verifyJWT (some secret) chk
      ⟨some (.bearer (.signed p isd (isd + tokenValiditySeconds) secret)), su⟩ =
      .respond 401 "Invalid token" "JWT token is invalid or expired" ∧
    verifyJWT (some secret) chk
      ⟨some (.bearer (.signed p isd (isd + tokenValiditySeconds) s2)), su⟩ =
      .respond 401 "Invalid token" "JWT token is invalid or expired" ∧
    verifyJWT (some secret) chk ⟨some (.bearer (.garbage g)), su⟩ =
      .respond 401 "Invalid token" "JWT token is invalid or expired" := by
  refine ⟨?_, ?_, ?_⟩ <;>
    simp [verifyJWT, jwtVerifyWire, Nat.le_of_lt hlate, hs2,
      JwtError.isJsonWebTokenError]

/-- Witness for expired_token_same_rejection at concrete data. -/
theorem expired_token_same_rejection_witness :
    verifyJWT (some "k") 90000
      ⟨some (.bearer (.signed ⟨"u", "a"⟩ 0 (0 + tokenValiditySeconds) "k")), none⟩ =
      .respond 401 "Invalid token" "JWT token is invalid or expired" :=
  (expired_token_same_rejection "k" "k2" "zz" 0 90000 ⟨"u", "a"⟩ none
    (by decide) (by decide)).1

/-- C5 counterexample: when server-side session destruction fails the
handler does not clear the session cookie; it responds 500 with the
cookie untouched, refuting the clause that the cookie is cleared
regardless of the destruction outcome. -/
theorem logout_failure_leaves_cookie :
    (logoutHandler true).cookieCleared = false ∧
    (logoutHandler true).status = 500 :=
  ⟨rfl, rfl⟩

/-- C5 amended: the cookie is cleared exactly when destruction
succeeds; a destruction failure yields a 500 response reporting Logout
failed, without clearing the cookie and without crashing. -/
theorem logout_cookie_cleared_iff_destroy_succeeds :
    logoutHandler false =
      ⟨200, .obj [("message", .str "Logout successful")], true⟩ ∧
    logoutHandler true =
      ⟨500, .obj [("error", .str "Logout failed"),
        ("message", .str "Could not clear session")], false⟩ :=
  ⟨rfl, rfl⟩

/-- C9: in authenticate and optionalAuth a non-Bearer Authorization
header is treated exactly like an absent header: the outcome equals
the outcome on the header-free request, and with a valid session the
request succeeds via the session identity. -/
theorem non_bearer_header_ignored (secret? : Option String) (now : Nat)
    (h : AuthHeader) (su : Option SessionUser)
    (hnb : ∀ w, h ≠ .bearer w) :
    authenticate secret? now ⟨some h, su⟩ =
      authenticate secret? now ⟨none, su⟩ ∧
    optionalAuth secret? now ⟨some h, su⟩ =
      optionalAuth secret? now ⟨none, su⟩ ∧
    (∀ u : SessionUser, su = some u →
      authenticate secret? now ⟨some h, su⟩ =
        .proceed (some ⟨u.id, u.username⟩)) := by
  cases h with
  | bearer w => exact absurd rfl (hnb w)
  | basic s =>
    refine ⟨rfl, rfl, ?_⟩
    intro u hu
    subst hu
    rfl
  | other s =>
    refine ⟨rfl, rfl, ?_⟩
    intro u hu
    subst hu
    rfl

/-- Witness for non_bearer_header_ignored with a Basic header and a
bound session. -/
theorem non_bearer_header_ignored_witness :
    authenticate (some "k") 0 ⟨some (.basic "zz"), some ⟨"u1", "alice"⟩⟩ =
      .proceed (some ⟨"u1", "alice"⟩) :=
  (non_bearer_header_ignored (some "k") 0 (.basic "zz") (some ⟨"u1", "alice"⟩)
    (fun w hw => by cases hw)).2.2 ⟨"u1", "alice"⟩ rfl

/-- Helper: with a configured secret, a Bearer request whose token does
not verify makes verifyJWT answer some 401 response. -/
theorem verifyJWT_fail_401 (s : String) (now : Nat) (req : AuthRequest)
    (w : TokenWire) (hb : req.authorization = some (.bearer w))
    (hfail : ∀ p, jwtVerifyWire w s now ≠ .ok p) :
    ∃ e m, verifyJWT (some s) now req = .respond 401 e m := by
  unfold verifyJWT
  rw [hb]
  cases w with
  | empty => exact ⟨_, _, rfl⟩
  | garbage g =>
    cases hres : jwtVerifyWire (.garbage g) s now with
    | ok p => exact absurd hres (hfail p)
    | error e =>
      exact ⟨"Invalid token", "JWT token is invalid or expired",
        by simp [hres, JwtError.isJsonWebTokenError]⟩
  | signed p iat expiry sec =>
    cases hres : jwtVerifyWire (.signed p iat expiry sec) s now with
    | ok q => exact absurd hres (hfail q)
    | error e =>
      exact ⟨"Invalid token", "JWT token is invalid or expired",
        by simp [hres, JwtError.isJsonWebTokenError]⟩

/-- C1: with a configured secret, a request carrying a Bearer header
whose token fails verification is answered 401 by authenticate, the
session is never consulted as a fallback, and the middleware never
calls the downstream handler (the outcome is a response, not a
proceed), whatever session the request carries. -/
theorem authenticate_bad_bearer_hard_401 (s : String) (now : Nat)
    (req : AuthRequest) (w : TokenWire)
    (hb : req.authorization = some (.bearer w))
    (hfail : ∀ p, jwtVerifyWire w s now ≠ .ok p) :
    (∃ e m, authenticate (some s) now req = .respond 401 e m) ∧
    (∀ u, authenticate (some s) now req ≠ .proceed u) := by
  have hbear : isBearerHeader req.authorization = true := by
    rw [hb]; rfl
  have hauth : authenticate (some s) now req = verifyJWT (some s) now req := by
    unfold authenticate
    rw [hbear]
    simp
  obtain ⟨e, m, hv⟩ := verifyJWT_fail_401 s now req w hb hfail
  rw [hauth, hv]
  exact ⟨⟨e, m, rfl⟩, fun u h => by cases h⟩

/-- Witness for authenticate_bad_bearer_hard_401: a garbled token next
to a valid session still yields no proceed outcome. -/
theorem authenticate_bad_bearer_hard_401_witness :
    authenticate (some "k") 0
      ⟨some (.bearer (.garbage "zz")), some ⟨"u1", "alice"⟩⟩ ≠
      .proceed (some ⟨"u1", "alice"⟩) :=
  (authenticate_bad_bearer_hard_401 "k" 0
    ⟨some (.bearer (.garbage "zz")), some ⟨"u1", "alice"⟩⟩ (.garbage "zz") rfl
    (fun p h => by simp [jwtVerifyWire] at h)).2 (some ⟨"u1", "alice"⟩)

/-- C2 counterexample: with alice registered under password secret123,
the wrong password x fails the login schema length bound, so the JSON
login path answers a 400 validation body while the Basic path answers
the 401 invalid-credentials body: the two attempts do not produce
byte-identical 401 bodies. -/
theorem login_wrong_password_bodies_differ :
    (login cmp0 (some "k") 0 store0 ⟨"alice", "x"⟩).status = 400 ∧
    (basicAuthLogin cmp0 (some "k") 0 store0 (some (.basic "alice:x"))).status
      = 401 :=
  ⟨rfl, rfl⟩

/-- C2 amended: for inputs within the login schema bounds (username
3-50 and password 6-100 characters), a wrong password for a registered
username and any attempt under an unregistered username produce the
same 401 invalid-credentials body, identical across the JSON and the
Basic login paths. -/
theorem login_enumeration_uniform_401 (cmp : String → String → Bool)
    (secret? : Option String) (now : Nat) (store : UserStore)
    (u pBad v q cred1 cred2 : String) (usr : StoredUser)
    (hu3 : 3 ≤ u.length) (hu50 : u.length ≤ 50) (hut : jsTrim u = u)
    (hp6 : 6 ≤ pBad.length) (hp100 : pBad.length ≤ 100)
    (hv3 : 3 ≤ v.length) (hv50 : v.length ≤ 50) (hvt : jsTrim v = v)
    (hq6 : 6 ≤ q.length) (hq100 : q.length ≤ 100)
    (hreg : findByUsername store u = some usr)
    (hwrong : cmp pBad usr.password = false)
    (hunreg : findByUsername store v = none)
    (hdec1 : decodeBasicAuth cred1 = some (u, pBad))
    (hdec2 : decodeBasicAuth cred2 = some (v, q)) :
    login cmp secret? now store ⟨u, pBad⟩ = ⟨401, invalidCredentialsBody⟩ ∧
    login cmp secret? now store ⟨v, q⟩ = ⟨401, invalidCredentialsBody⟩ ∧
    basicAuthLogin cmp secret? now store (some (.basic cred1)) =
      ⟨401, invalidCredentialsBody⟩ ∧
    basicAuthLogin cmp secret? now store (some (.basic cred2)) =
      ⟨401, invalidCredentialsBody⟩ := by
  have hiss1 : createUserIssues ⟨u, pBad⟩ = [] := by
    simp [createUserIssues, Nat.not_lt.mpr hu3, Nat.not_lt.mpr hu50,
      Nat.not_lt.mpr hp6, Nat.not_lt.mpr hp100]
  have hiss2 : createUserIssues ⟨v, q⟩ = [] := by
    simp [createUserIssues, Nat.not_lt.mpr hv3, Nat.not_lt.mpr hv50,
      Nat.not_lt.mpr hq6, Nat.not_lt.mpr hq100]
  refine ⟨?_, ?_, ?_, ?_⟩
  · simp [login, parseLoginUser, hiss1, validateCredentials, hut, hreg, hwrong]
  · simp [login, parseLoginUser, hiss2, validateCredentials, hvt, hunreg]
  · simp [basicAuthLogin, hdec1, validateCredentials, hreg, hwrong]
  · simp [basicAuthLogin, hdec2, validateCredentials, hunreg]

/-- Witness for login_enumeration_uniform_401 on the concrete store
with alice registered, the wrong password wrongpass and the
unregistered username bobby. -/
theorem login_enumeration_uniform_401_witness :
    login cmp0 (some "k") 0 store0 ⟨"alice", "wrongpass"⟩ =
      ⟨401, invalidCredentialsBody⟩ ∧
    login cmp0 (some "k") 0 store0 ⟨"bobby", "whatever9"⟩ =
      ⟨401, invalidCredentialsBody⟩ ∧
    basicAuthLogin cmp0 (some "k") 0 store0
      (some (.basic "alice:wrongpass")) = ⟨401, invalidCredentialsBody⟩ ∧
    basicAuthLogin cmp0 (some "k") 0 store0
      (some (.basic "bobby:whatever9")) = ⟨401, invalidCredentialsBody⟩ :=
  login_enumeration_uniform_401 cmp0 (some "k") 0 store0 "alice" "wrongpass"
    "bobby" "whatever9" "alice:wrongpass" "bobby:whatever9"
    ⟨"u1", "alice", "bh:secret123", 0⟩ (by decide) (by decide) (by decide)
    (by decide) (by decide) (by decide) (by decide) (by decide) (by decide)
    (by decide) rfl (by decide) rfl rfl rfl

/-- Helper: once the username is present in the store, every later
atomic unique insert under that username fails. -/
theorem runInserts_present_all_fail (w : String) :
    ∀ (us : List StoredUser) (store : UserStore),
      (∀ u ∈ us, u.username = w) →
      store.any (fun v => v.username = w) = true →
      (runInserts store us).1.count true = 0 := by
  intro us
  induction us with
  | nil => intro store _ _; rfl
  | cons u rest ih =>
    intro store hall hpresent
    have hu : u.username = w := hall u (List.mem_cons_self u rest)
    have hrest : ∀ x ∈ rest, x.username = w :=
      fun x hx => hall x (List.mem_cons_of_mem u hx)
    have hfail : storeInsertUnique store u = .error () := by
      simp [storeInsertUnique, hu, hpresent]
    simp [runInserts, hfail, List.count_cons, ih store hrest hpresent]

/-- Helper: among any sequence of atomic unique inserts sharing one
username, at most one succeeds. -/
theorem runInserts_at_most_one_success (w : String) :
    ∀ (us : List StoredUser) (store : UserStore),
      (∀ u ∈ us, u.username = w) →
      (runInserts store us).1.count true ≤ 1 := by
  intro us
  induction us with
  | nil => intro store _; simp [runInserts]
  | cons u rest ih =>
    intro store hall
    have hu : u.username = w := hall u (List.mem_cons_self u rest)
    have hrest : ∀ x ∈ rest, x.username = w :=
      fun x hx => hall x (List.mem_cons_of_mem u hx)
    by_cases hpresent : store.any (fun v => v.username = w) = true
    · have hfail : storeInsertUnique store u = .error () := by
        simp [storeInsertUnique, hu, hpresent]
      simp [runInserts, hfail, List.count_cons]
      exact ih store hrest
    · have habsent : store.any (fun v => v.username = u.username) = false := by
        rw [hu]
        exact Bool.eq_false_iff.mpr hpresent
      have hok : storeInsertUnique store u = .ok (store ++ [u]) := by
        simp [storeInsertUnique, habsent]
      have hpresent2 : (store ++ [u]).any (fun v => v.username = w) = true := by
        simp [List.any_append, hu]
      have hz := runInserts_present_all_fail w rest (store ++ [u]) hrest hpresent2
      simp [runInserts, hok, List.count_cons, hz]

/-- C6: a registration attempt whose validated username is already
registered is answered 409 with the conflict body and leaves the store
unchanged; and among any set of atomic unique-index inserts with the
same username, as arise from concurrent registrations in any
interleaving, at most one succeeds. -/
theorem duplicate_registration_conflict :
    (∀ (bhash : String → String) (secret? : Option String) (now : Nat)
        (newId oid : String) (store : UserStore) (body : LoginUser)
        (data : CreateUser),
      parseCreateUser body = .ok data →
      existsByUsername store data.username = true →
      register bhash secret? now newId oid store body =
        (⟨409, .obj [("error", .str "User already exists"),
          ("message", .str "Username is already taken")]⟩, store)) ∧
    (∀ (store : UserStore) (w : String) (us : List StoredUser),
      (∀ u ∈ us, u.username = w) →
      (runInserts store us).1.count true ≤ 1) := by
  constructor
  · intro bhash secret? now newId oid store body data hparse hexists
    simp [register, hparse, hexists]
  · intro store w us hall
    exact runInserts_at_most_one_success w us store hall

/-- Witness for duplicate_registration_conflict: registering alice a
second time gives 409 and leaves the store unchanged, and two
concurrent inserts of the same username admit at most one success. -/
theorem duplicate_registration_conflict_witness :
    register bh0 (some "k") 0 "u2" "o2" store0 ⟨"alice", "secret123"⟩ =
      (⟨409, .obj [("error", .str "User already exists"),
        ("message", .str "Username is already taken")]⟩, store0) ∧
    (runInserts [] [⟨"a", "w", "h1", 0⟩, ⟨"b", "w", "h2", 0⟩]).1.count true ≤ 1 :=
  ⟨duplicate_registration_conflict.1 bh0 (some "k") 0 "u2" "o2" store0
      ⟨"alice", "secret123"⟩ ⟨"alice", "secret123"⟩ rfl rfl,
    duplicate_registration_conflict.2 [] "w"
      [⟨"a", "w", "h1", 0⟩, ⟨"b", "w", "h2", 0⟩] (by decide)⟩

/-- C7: with no signing secret configured, token verification answers
500 Configuration error, token issuance throws, and each of register,
JSON login and Basic login surfaces the thrown error as the generic
500 response of the global error handler, which is not a 401 and
carries no token. -/
theorem missing_secret_configuration_500 :
    (∀ (now : Nat) (req : AuthRequest) (w : TokenWire),
      req.authorization = some (.bearer w) → w ≠ .empty →
      verifyJWT none now req =
        .respond 500 "Configuration error" "JWT secret not configured") ∧
    (∀ (now : Nat) (id name : String),
      generateJWT none now id name =
        .error "JWT_SECRET environment variable is not set") ∧
    (∀ (bhash : String → String) (now : Nat) (newId oid : String)
        (store : UserStore) (body : LoginUser) (data : CreateUser),
      parseCreateUser body = .ok data →
      existsByUsername store data.username = false →
      (register bhash none now newId oid store body).1 =
        genericErrorResponse) ∧
    (∀ (cmp : String → String → Bool) (now : Nat) (store : UserStore)
        (body : LoginUser) (data : LoginUser) (usr : StoredUser),
      parseLoginUser body = .ok data →
      validateCredentials cmp store data = some usr →
      login cmp none now store body = genericErrorResponse) ∧
    (∀ (cmp : String → String → Bool) (now : Nat) (store : UserStore)
        (credentials u p : String) (usr : StoredUser),
      decodeBasicAuth credentials = some (u, p) →
      validateCredentials cmp store ⟨u, p⟩ = some usr →
      basicAuthLogin cmp none now store (some (.basic credentials)) =
        genericErrorResponse) ∧
    genericErrorResponse.status = 500 ∧
    genericErrorResponse.status ≠ 401 ∧
    genericErrorResponse.body.lookup "token" = none := by
  refine ⟨?_, fun _ _ _ => rfl, ?_, ?_, ?_, rfl, by decide, rfl⟩
  · intro now req w hb hne
    unfold verifyJWT
    rw [hb]
    cases w with
    | empty => exact absurd rfl hne
    | garbage g => rfl
    | signed p iat expiry sec => rfl
  · intro bhash now newId oid store body data hparse hexists
    have habsent : store.any (fun v => v.username = data.username) = false := by
      rw [← existsByUsername_eq_any]
      exact hexists
    simp [register, hparse, hexists, storeInsertUnique, habsent, generateJWT]
  · intro cmp now store body data usr hparse hcred
    simp [login, hparse, hcred, generateJWT]
  · intro cmp now store credentials u p usr hdec hcred
    simp [basicAuthLogin, hdec, hcred, generateJWT]

/-- Witness for missing_secret_configuration_500 at concrete inputs:
an unconfigured secret turns verification and each login entry point
into a 500. -/
theorem missing_secret_configuration_500_witness :
    verifyJWT none 0 ⟨some (.bearer (.garbage "zz")), none⟩ =
      .respond 500 "Configuration error" "JWT secret not configured" ∧
    (register bh0 none 0 "u2" "o2" [] ⟨"carol", "secret123"⟩).1 =
      genericErrorResponse ∧
    login cmp0 none 0 store0 ⟨"alice", "secret123"⟩ = genericErrorResponse ∧
    basicAuthLogin cmp0 none 0 store0 (some (.basic "alice:secret123")) =
      genericErrorResponse :=
  ⟨missing_secret_configuration_500.1 0 ⟨some (.bearer (.garbage "zz")), none⟩
      (.garbage "zz") rfl (by decide),
    missing_secret_configuration_500.2.2.1 bh0 0 "u2" "o2" []
      ⟨"carol", "secret123"⟩ ⟨"carol", "secret123"⟩ rfl rfl,
    missing_secret_configuration_500.2.2.2.1 cmp0 0 store0
      ⟨"alice", "secret123"⟩ ⟨"alice", "secret123"⟩
      ⟨"u1", "alice", "bh:secret123", 0⟩ rfl (by decide),
    missing_secret_configuration_500.2.2.2.2.1 cmp0 0 store0
      "alice:secret123" "alice" "secret123" ⟨"u1", "alice", "bh:secret123", 0⟩
      (by decide) (by decide)⟩

/-- The toObject transform leaves exactly the id, username and
createdAt keys. -/
theorem userToObject_topKeys (u : StoredUser) (oid : String) :
    (userToObject u oid).topKeys = ["id", "username", "createdAt"] := rfl

/-- Helper: the register response never exposes a password key inside
its user object. -/
theorem register_user_no_password (bhash : String → String)
    (secret? : Option String) (now : Nat) (newId oid : String)
    (store : UserStore) (body : LoginUser) (uj : Json)
    (h : (register bhash secret? now newId oid store body).1.body.lookup
      "user" = some uj) :
    "password" ∉ uj.topKeys := by
  unfold register at h
  rcases hp : parseCreateUser body with issues | data <;> simp only [hp] at h
  · simp [zodErrorResponse, Json.lookup] at h
  · by_cases he : existsByUsername store data.username = true
    · simp only [he, if_true] at h
      simp [Json.lookup] at h
    · simp only [he, if_false, Bool.false_eq_true] at h
      rcases hi : storeInsertUnique store
        ⟨newId, data.username, bhash data.password, now⟩ with e | store2 <;>
        simp only [hi] at h
      · simp [genericErrorResponse, Json.lookup] at h
      · rcases hg : generateJWT secret? now newId data.username
          with e | tokn <;> simp only [hg] at h
        · simp [genericErrorResponse, Json.lookup] at h
        · simp [Json.lookup] at h
          rw [← h, userToObject_topKeys]
          decide

/-- Helper: the JSON login response never exposes a password key inside
its user object. -/
theorem login_user_no_password (cmp : String → String → Bool)
    (secret? : Option String) (now : Nat) (store : UserStore)
    (body : LoginUser) (uj : Json)
    (h : (login cmp secret? now store body).body.lookup "user" = some uj) :
    "password" ∉ uj.topKeys := by
  unfold login at h
  rcases hp : parseLoginUser body with issues | data <;> simp only [hp] at h
  · simp [zodErrorResponse, Json.lookup] at h
  · rcases hc : validateCredentials cmp store data with _ | usr <;>
      simp only [hc] at h
    · simp [invalidCredentialsBody, Json.lookup] at h
    · rcases hg : generateJWT secret? now usr.id usr.username
        with e | tokn <;> simp only [hg] at h
      · simp [genericErrorResponse, Json.lookup] at h
      · simp [Json.lookup, loginUserJson] at h
        rw [← h]
        simp [Json.topKeys]

/-- Helper: the Basic login response never exposes a password key
inside its user object. -/
theorem basicAuthLogin_user_no_password (cmp : String → String → Bool)
    (secret? : Option String) (now : Nat) (store : UserStore)
    (header : Option AuthHeader) (uj : Json)
    (h : (basicAuthLogin cmp secret? now store header).body.lookup "user" =
      some uj) :
    "password" ∉ uj.topKeys := by
  unfold basicAuthLogin at h
  rcases header with _ | hd
  · simp [Json.lookup] at h
  · rcases hd with w | credentials | s
    · simp [Json.lookup] at h
    · rcases hdec : decodeBasicAuth credentials with _ | up <;>
        simp only [hdec] at h
      · simp [Json.lookup] at h
      · rcases hc : validateCredentials cmp store ⟨up.1, up.2⟩ with _ | usr
        · simp only [hc] at h
          simp [invalidCredentialsBody, Json.lookup] at h
        · simp only [hc] at h
          rcases hg : generateJWT secret? now usr.id usr.username
            with e | tokn <;> simp only [hg] at h
          · simp [genericErrorResponse, Json.lookup] at h
          · simp [Json.lookup, loginUserJson] at h
            rw [← h]
            simp [Json.topKeys]
    · simp [Json.lookup] at h

/-- Helper: the session login response never exposes a password key
inside its user object. -/
theorem sessionLogin_user_no_password (cmp : String → String → Bool)
    (store : UserStore) (body : LoginUser) (uj : Json)
    (h : (sessionLogin cmp store body).1.body.lookup "user" = some uj) :
    "password" ∉ uj.topKeys := by
  unfold sessionLogin at h
  rcases hp : parseLoginUser body with issues | data <;> simp only [hp] at h
  · simp [zodErrorResponse, Json.lookup] at h
  · rcases hc : validateCredentials cmp store data with _ | usr <;>
      simp only [hc] at h
    · simp [invalidCredentialsBody, Json.lookup] at h
    · simp [Json.lookup, loginUserJson] at h
      rw [← h]
      simp [Json.topKeys]

/-- Helper: the profile response never exposes a password key inside
its user object. -/
theorem profile_user_no_password (store : UserStore)
    (reqUser : Option AuthUser) (sessionUser : Option SessionUser) (uj : Json)
    (h : (profile store reqUser sessionUser).body.lookup "user" = some uj) :
    "password" ∉ uj.topKeys := by
  unfold profile at h
  rcases reqUser with _ | ru
  · rcases sessionUser with _ | su
    · simp [Json.lookup] at h
    · dsimp only [Option.map] at h
      rcases hf : findById store su.id with _ | pu
      · rw [hf] at h
        simp [Json.lookup] at h
      · rw [hf] at h
        simp [Json.lookup, publicUserJson] at h
        rw [← h]
        simp [Json.topKeys]
  · dsimp only at h
    rcases hf : findById store ru.userId with _ | pu
    · rw [hf] at h
      simp [Json.lookup] at h
    · rw [hf] at h
      simp [Json.lookup, publicUserJson] at h
      rw [← h]
      simp [Json.topKeys]

/-- C8: no response of register, JSON login, Basic login, session
login or profile carries a password or password-hash key inside its
user object: the stored hash never crosses the serialization
boundary. -/
theorem responses_never_contain_password_hash :
    (∀ (bhash : String → String) (secret? : Option String) (now : Nat)
        (newId oid : String) (store : UserStore) (body : LoginUser)
        (uj : Json),
      (register bhash secret? now newId oid store body).1.body.lookup
        "user" = some uj → "password" ∉ uj.topKeys) ∧
    (∀ (cmp : String → String → Bool) (secret? : Option String) (now : Nat)
        (store : UserStore) (body : LoginUser) (uj : Json),
      (login cmp secret? now store body).body.lookup "user" = some uj →
      "password" ∉ uj.topKeys) ∧
    (∀ (cmp : String → String → Bool) (secret? : Option String) (now : Nat)
        (store : UserStore) (header : Option AuthHeader) (uj : Json),
      (basicAuthLogin cmp secret? now store header).body.lookup "user" =
        some uj → "password" ∉ uj.topKeys) ∧
    (∀ (cmp : String → String → Bool) (store : UserStore) (body : LoginUser)
        (uj : Json),
      (sessionLogin cmp store body).1.body.lookup "user" = some uj →
      "password" ∉ uj.topKeys) ∧
    (∀ (store : UserStore) (reqUser : Option AuthUser)
        (sessionUser : Option SessionUser) (uj : Json),
      (profile store reqUser sessionUser).body.lookup "user" = some uj →
      "password" ∉ uj.topKeys) :=
  ⟨register_user_no_password, login_user_no_password,
    basicAuthLogin_user_no_password, sessionLogin_user_no_password,
    profile_user_no_password⟩

/-- Witness for responses_never_contain_password_hash: the user object
of a concrete successful registration has no password key. -/
theorem responses_never_contain_password_hash_witness :
    "password" ∉ (Json.obj [("id", .str "u1"), ("username", .str "alice"),
      ("createdAt", .num 0)]).topKeys :=
  responses_never_contain_password_hash.1 bh0 (some "k") 0 "u1" "o1" []
    ⟨"alice", "secret123"⟩
    (.obj [("id", .str "u1"), ("username", .str "alice"),
      ("createdAt", .num 0)]) rfl

/-- Helper: a registration body within the raw length bounds whose
trimmed username is free creates exactly one user under the trimmed
username. -/
theorem register_creates_trimmed (b : LoginUser)
    (h1 : 3 ≤ b.username.length) (h2 : b.username.length ≤ 50)
    (h3 : 6 ≤ b.password.length) (h4 : b.password.length ≤ 100)
    (bhash : String → String) (secret : String) (now : Nat)
    (newId oid : String) (store : UserStore)
    (hexist : existsByUsername store (jsTrim b.username) = false) :
    register bhash (some secret) now newId oid store b =
      (⟨201, .obj [("message", .str "User registered successfully"),
        ("user", userToObject
          ⟨newId, jsTrim b.username, bhash b.password, now⟩ oid),
        ("token", .tok (issuedToken newId (jsTrim b.username) now secret))]⟩,
        store ++ [⟨newId, jsTrim b.username, bhash b.password, now⟩]) := by
  have hiss : createUserIssues b = [] := by
    simp [createUserIssues, Nat.not_lt.mpr h1, Nat.not_lt.mpr h2,
      Nat.not_lt.mpr h3, Nat.not_lt.mpr h4]
  have hparse : parseCreateUser b = .ok ⟨jsTrim b.username, b.password⟩ := by
    simp [parseCreateUser, hiss]
  have habsent : store.any (fun v => v.username = jsTrim b.username) = false := by
    rw [← existsByUsername_eq_any]
    exact hexist
  simp [register, hparse, hexist, storeInsertUnique, habsent, generateJWT]

/-- C10: createUserSchema checks the 3-to-50 bound on the raw username
and only then trims, so a body whose raw username is within bounds is
accepted and the account is created under the trimmed username, even
when the trimmed form is shorter than 3 characters; and a second body
within bounds whose username trims to the same string collides with
the first account (409), so the two inputs denote the same account. -/
theorem username_bounds_precede_trim (b : LoginUser)
    (h1 : 3 ≤ b.username.length) (h2 : b.username.length ≤ 50)
    (h3 : 6 ≤ b.password.length) (h4 : b.password.length ≤ 100) :
    parseCreateUser b = .ok ⟨jsTrim b.username, b.password⟩ ∧
    (∀ (bhash : String → String) (secret : String) (now : Nat)
        (newId oid : String) (store : UserStore),
      existsByUsername store (jsTrim b.username) = false →
      (register bhash (some secret) now newId oid store b).1.status = 201 ∧
      (register bhash (some secret) now newId oid store b).2 =
        store ++ [⟨newId, jsTrim b.username, bhash b.password, now⟩]) ∧
    (∀ b2 : LoginUser, jsTrim b2.username = jsTrim b.username →
      3 ≤ b2.username.length → b2.username.length ≤ 50 →
      6 ≤ b2.password.length → b2.password.length ≤ 100 →
      ∀ (bhash bhash2 : String → String) (secret : String) (now now2 : Nat)
        (newId oid newId2 oid2 : String) (store : UserStore),
        existsByUsername store (jsTrim b.username) = false →
        (register bhash2 (some secret) now2 newId2 oid2
          (register bhash (some secret) now newId oid store b).2 b2).1 =
          ⟨409, .obj [("error", .str "User already exists"),
            ("message", .str "Username is already taken")]⟩) := by
  have hiss : createUserIssues b = [] := by
    simp [createUserIssues, Nat.not_lt.mpr h1, Nat.not_lt.mpr h2,
      Nat.not_lt.mpr h3, Nat.not_lt.mpr h4]
  refine ⟨by simp [parseCreateUser, hiss], ?_, ?_⟩
  · intro bhash secret now newId oid store hexist
    rw [register_creates_trimmed b h1 h2 h3 h4 bhash secret now newId oid
      store hexist]
    exact ⟨rfl, rfl⟩
  · intro b2 heq hb1 hb2 hb3 hb4 bhash bhash2 secret now now2 newId oid
      newId2 oid2 store hexist
    rw [register_creates_trimmed b h1 h2 h3 h4 bhash secret now newId oid
      store hexist]
    have hiss2 : createUserIssues b2 = [] := by
      simp [createUserIssues, Nat.not_lt.mpr hb1, Nat.not_lt.mpr hb2,
        Nat.not_lt.mpr hb3, Nat.not_lt.mpr hb4]
    have hparse2 : parseCreateUser b2 = .ok ⟨jsTrim b2.username, b2.password⟩ := by
      simp [parseCreateUser, hiss2]
    have hexists2 : existsByUsername
        (store ++ [⟨newId, jsTrim b.username, bhash b.password, now⟩])
        (jsTrim b2.username) = true := by
      rw [existsByUsername_eq_any, heq]
      simp [List.any_append]
    simp [register, hparse2, hexists2]

/-- Witness for username_bounds_precede_trim: the raw username of five
characters with surrounding whitespace is accepted, the account is
created under the two-character trimmed username ab, and a second body
trimming to ab collides with it. -/
theorem username_bounds_precede_trim_witness :
    parseCreateUser ⟨"  ab ", "secret123"⟩ = .ok ⟨"ab", "secret123"⟩ ∧
    (register bh0 (some "k") 0 "u9" "o9" [] ⟨"  ab ", "secret123"⟩).2 =
      [⟨"u9", "ab", bh0 "secret123", 0⟩] ∧
    (register bh0 (some "k") 0 "u8" "o8"
      (register bh0 (some "k") 0 "u9" "o9" [] ⟨"  ab ", "secret123"⟩).2
      ⟨" ab  ", "secret123"⟩).1 =
      ⟨409, .obj [("error", .str "User already exists"),
        ("message", .str "Username is already taken")]⟩ :=
  ⟨(username_bounds_precede_trim ⟨"  ab ", "secret123"⟩ (by decide) (by decide)
      (by decide) (by decide)).1,
    ((username_bounds_precede_trim ⟨"  ab ", "secret123"⟩ (by decide)
      (by decide) (by decide) (by decide)).2.1 bh0 "k" 0 "u9" "o9" [] rfl).2,
    (username_bounds_precede_trim ⟨"  ab ", "secret123"⟩ (by decide)
      (by decide) (by decide) (by decide)).2.2 ⟨" ab  ", "secret123"⟩
      (by decide) (by decide) (by decide) (by decide) (by decide) bh0 bh0 "k"
      0 0 "u9" "o9" "u8" "o8" [] rfl⟩

end Walletfy
